import Mathlib

/-!
Verification of the clinical decision-support pipeline
(backend/services/clinical_processor.py, vector_db_service.py, rag_service.py,
backend/utils/config.py) against its natural-language specification.

The Python source is shallowly embedded: dictionaries become structures,
Python strings become Lean `String` (all the data the relevant code paths
inspect is ASCII, where Python `str.lower`, `str.strip`, `\s`, `\w` agree
with the Lean models defined below), floats become `ℚ` (the scoring code is
a finite sum/compare/min of decimal literals, exact in ℚ), and `None`
becomes `Option`.  Functions that consult the wall clock take the current
calendar year as an explicit argument.  Python constructs whose observable
order is unspecified (iteration over a `set`) are embedded as relations over
the possible result lists rather than as functions; this is noted at each
such definition.
-/

namespace CDSS

/-! ### Python string primitives -/

/-- Python whitespace class for `str.strip` and the regex class `\s`
(ASCII part: space, tab, newline, carriage return, form feed, vertical tab). -/
def isPyWs (c : Char) : Bool :=
  c = ' ' || c = '\t' || c = '\n' || c = '\r' || c = '\x0c' || c = '\x0b'

/-- Python `str.strip()` on the underlying character list. -/
def pyStripList (l : List Char) : List Char :=
  ((l.dropWhile isPyWs).reverse.dropWhile isPyWs).reverse

/-- Python `str.strip()`. -/
def pyStripStr (s : String) : String :=
  ⟨pyStripList s.data⟩

/-- Python slicing `s[:n]` (by code point, as Python does). -/
def pyTakeStr (n : Nat) (s : String) : String :=
  ⟨s.data.take n⟩

/-- Python substring test `needle in haystack` on character lists. -/
def listContainsSub (needle : List Char) : List Char → Bool
  | [] => needle.isEmpty
  | c :: t => needle.isPrefixOf (c :: t) || listContainsSub needle t

/-- Python substring test `needle in haystack`. -/
def strContains (haystack needle : String) : Bool :=
  listContainsSub needle.data haystack.data

/-- Python `s.startswith(pre)`. -/
def strStarts (s pre : String) : Bool :=
  pre.data.isPrefixOf s.data

/-- Python `s.endswith(suf)`. -/
def strEnds (s suf : String) : Bool :=
  suf.data.isSuffixOf s.data

/-- Python `s.split(sep)` for a non-empty separator, with fuel for
termination (fuel is instantiated with the length of the string, which
bounds the number of steps). -/
def pySplitAux (sep : List Char) : Nat → List Char → List Char → List (List Char)
  | 0, s, cur => [cur.reverse ++ s]
  | _ + 1, [], cur => [cur.reverse]
  | fuel + 1, c :: t, cur =>
    if sep.isPrefixOf (c :: t) then
      cur.reverse :: pySplitAux sep fuel ((c :: t).drop sep.length) []
    else
      pySplitAux sep fuel t (c :: cur)

/-- Python `s.split(sep)` (non-empty `sep`); `"".split(sep) = [""]`. -/
def pySplitStr (sep s : String) : List String :=
  (pySplitAux sep.data s.data.length s.data []).map (fun l => ⟨l⟩)

/-- Python `s.lower()` (ASCII; agrees with `Char.toLower` per code point).
Defined by a structural map over the character list so that it reduces in
the kernel. -/
def pyToLower (s : String) : String :=
  ⟨s.data.map Char.toLower⟩

/-! ### Data model

`Document` embeds the dictionaries flowing through
`clinical_processor.generate_recommendations` and
`vector_db_service.add_documents`: keys `pmid`, `title`, `abstract`,
`content`, `journal`, `pub_date`, `score`.  A missing `pmid` key is
`none`. -/

structure Document where
  pmid : Option String
  title : String
  abstract : String
  content : String
  journal : String
  pub_date : String
  score : ℚ
deriving DecidableEq, Repr, Inhabited

/-- Patient-context dictionary (keys read by the source: `age`, `gender`,
`existing_conditions`).  `none` for the whole context models both a missing
and an empty (hence falsy) dictionary. -/
structure PatientContext where
  age : Option Int
  gender : Option String
  existing_conditions : List String
deriving DecidableEq, Repr, Inhabited

/-! ### Evidence quality assessor (`_analyze_evidence_quality`) -/

/-- The fixed high-impact journal allow-list (source line 301). -/
def high_impact_journals : List String :=
  ["new england journal of medicine", "lancet", "jama", "bmj",
   "nature medicine", "cell", "science", "nature"]

/-- The study-type bonus table in source (= Python 3.7+ dict) insertion
order (source line 306). -/
def study_types : List (String × Nat) :=
  [("randomized controlled trial", 5),
   ("systematic review", 4),
   ("meta-analysis", 4),
   ("cohort study", 3),
   ("case-control study", 2),
   ("case series", 1),
   ("case report", 1)]

/-- `any(hi_journal in journal for hi_journal in high_impact_journals)`
with `journal = doc.get("journal", "").lower()`. -/
def journalHighImpact (d : Document) : Bool :=
  high_impact_journals.any (fun hj => strContains (pyToLower d.journal) hj)

/-- First matching study type wins (the loop breaks), in table order. -/
def studyBonusAux (content : String) : List (String × Nat) → Nat
  | [] => 0
  | (st, sc) :: rest =>
    if strContains content st then sc else studyBonusAux content rest

/-- Study-design bonus over `(title + " " + content).lower()`. -/
def studyBonus (d : Document) : Nat :=
  studyBonusAux (pyToLower (d.title ++ " " ++ d.content)) study_types

/-- The recency branch of the per-document loop: returns
(score increment, recent-paper tally increment). -/
def recencyInfo (year : Nat) (d : Document) : Nat × Nat :=
  if d.pub_date ≠ "" ∧ strStarts d.pub_date (toString year) then (1, 1)
  else if d.pub_date ≠ "" ∧ strStarts d.pub_date (toString (year - 1)) then (0, 1)
  else (0, 0)

/-- Per-document integer score accumulated by the loop body of
`_analyze_evidence_quality`. -/
def docScore (year : Nat) (d : Document) : Nat :=
  1 + (if journalHighImpact d then 2 else 0) + studyBonus d + (recencyInfo year d).1

/-- Result dictionary of `_analyze_evidence_quality`. -/
structure EvidenceAnalysis where
  level : String
  average_score : ℚ
  total_papers : Nat
  recent_papers : Nat
  high_impact_journals : Nat
  summary : String
deriving DecidableEq, Repr, Inhabited

/-- `_analyze_evidence_quality` (source lines 298-369); `year` stands for
`datetime.now().year`. -/
def analyzeEvidenceQuality (year : Nat) (docs : List Document) : EvidenceAnalysis :=
  let total_score : Nat := (docs.map (docScore year)).sum
  let evidence_count : Nat := docs.length
  let recent_papers : Nat := (docs.map (fun d => (recencyInfo year d).2)).sum
  let high_impact_count : Nat := (docs.filter journalHighImpact).length
  let avg_score : ℚ := if evidence_count > 0 then (total_score : ℚ) / (evidence_count : ℚ) else 0
  let level : String :=
    if avg_score ≥ 6 ∧ high_impact_count ≥ 2 then "High"
    else if avg_score ≥ 4 ∧ evidence_count ≥ 3 then "Moderate"
    else if avg_score ≥ 2 then "Low"
    else "Very Low"
  { level := level
    average_score := avg_score
    total_papers := evidence_count
    recent_papers := recent_papers
    high_impact_journals := high_impact_count
    summary := "Evidence based on " ++ toString evidence_count ++ " papers, "
      ++ toString recent_papers ++ " recent, " ++ toString high_impact_count
      ++ " from high-impact journals" }

/-! ### Confidence scorer (`_calculate_confidence_score`) -/

/-- `evidence_scores.get(level, 0.1)`: the dict maps High/Moderate/Low/Very
Low to 0.4/0.3/0.2/0.1 and everything else defaults to 0.1 (the Very Low
entry coincides with the default). -/
def evidenceScoreOf (level : String) : ℚ :=
  if level = "High" then 4/10
  else if level = "Moderate" then 3/10
  else if level = "Low" then 2/10
  else 1/10

/-- `_calculate_confidence_score` (source lines 560-595). -/
def calcConfidenceScore (ea : EvidenceAnalysis) (documents : List Document) : ℚ :=
  let base_score : ℚ := 3/10
  let s1 : ℚ := base_score + evidenceScoreOf ea.level
  let doc_count : Nat := documents.length
  let s2 : ℚ := s1 +
    (if doc_count ≥ 5 then 3/10 else if doc_count ≥ 3 then 2/10
     else if doc_count ≥ 1 then 1/10 else 0)
  let recent_ratio : ℚ := (ea.recent_papers : ℚ) / ((max ea.total_papers 1 : Nat) : ℚ)
  let s3 : ℚ := s2 + recent_ratio * (2/10)
  let high_impact_ratio : ℚ := (ea.high_impact_journals : ℚ) / ((max ea.total_papers 1 : Nat) : ℚ)
  let s4 : ℚ := s3 + high_impact_ratio * (1/10)
  min s4 (95/100)

/-- The closed-form the specification states for the confidence scorer,
written from the claim text: min(0.95, 0.3 + evidence-level term + volume
term + 0.2 * recent ratio + 0.1 * high-impact ratio). -/
def specConfidenceFormula (ea : EvidenceAnalysis) (documents : List Document) : ℚ :=
  min (95/100)
    ((3 : ℚ)/10
      + (if ea.level = "High" then 4/10
         else if ea.level = "Moderate" then 3/10
         else if ea.level = "Low" then 2/10
         else if ea.level = "Very Low" then 1/10
         else 1/10)
      + (if documents.length ≥ 5 then 3/10
         else if documents.length ≥ 3 then 2/10
         else if documents.length ≥ 1 then 1/10
         else 0)
      + (2/10) * ((ea.recent_papers : ℚ) / ((max ea.total_papers 1 : Nat) : ℚ))
      + (1/10) * ((ea.high_impact_journals : ℚ) / ((max ea.total_papers 1 : Nat) : ℚ)))

lemma evidenceScoreOf_nonneg (level : String) : 0 ≤ evidenceScoreOf level := by
  unfold evidenceScoreOf
  split_ifs <;> norm_num

lemma evidenceScoreOf_ge (level : String) : 1/10 ≤ evidenceScoreOf level := by
  unfold evidenceScoreOf
  split_ifs <;> norm_num

lemma ratio_nonneg (a b : Nat) : (0 : ℚ) ≤ (a : ℚ) / ((max b 1 : Nat) : ℚ) := by
  apply div_nonneg
  · exact_mod_cast Nat.zero_le a
  · exact_mod_cast Nat.zero_le (max b 1)

/-! ### Regex machinery for the synthesizer

The synthesizer's regular expressions all have one of two literal shapes:

* an alternation of literal stems, each optionally followed by `s` or `d`
  (for instance `(recommend|suggests?|...)` or `contraindicated?`),
  followed by a greedy tail `[^.]*` - with `re.findall` returning either
  the group (the alternation) or, when the pattern has no group, the whole
  match;
* a literal stem with optional `s`, one character of the class `[:\-\s]`,
  and a greedy non-empty capture `([^.]+)` - `re.findall` returns the
  capture.

Both are embedded directly.  Alternatives are tried in pattern order
(Python alternation is first-match, not longest-match); the optional
letter is greedy, and since the tails `[^.]*` / `[^.]+` never force
backtracking into the alternation beyond the cases handled below, the
embedding matches `re` semantics on these patterns. -/

/-- One alternative: a literal stem plus an optional trailing letter. -/
structure RxAlt where
  stem : String
  opt : Option Char
deriving Repr

/-- Length of the match of the first alternative matching at the head of
`s` (the group part only, without the `[^.]*` tail); greedy on the
optional letter. -/
def altMatchLen (alts : List RxAlt) (s : List Char) : Option Nat :=
  match alts with
  | [] => none
  | a :: rest =>
    if a.stem.data.isPrefixOf s then
      let n := a.stem.data.length
      match a.opt with
      | some c => if (s.drop n).head? = some c then some (n + 1) else some n
      | none => some n
    else altMatchLen rest s

/-- `re.findall` for `(alt1|alt2|...)[^.]*` style patterns, scanning left
to right, non-overlapping.  If `groupOnly` is true the returned strings
are the group matches (pattern has a group), otherwise the whole match
including the `[^.]*` tail (pattern has no group).  Fuel is the length of
the text, which bounds the number of scanning steps. -/
def scanMatches (alts : List RxAlt) (groupOnly : Bool) : Nat → List Char → List String
  | 0, _ => []
  | _ + 1, [] => []
  | fuel + 1, c :: t =>
    match altMatchLen alts (c :: t) with
    | none => scanMatches alts groupOnly fuel t
    | some n =>
      let tail := ((c :: t).drop n).takeWhile (fun ch => ch ≠ '.')
      let whole := n + tail.length
      (if groupOnly then ⟨(c :: t).take n⟩ else ⟨(c :: t).take whole⟩) ::
        scanMatches alts groupOnly fuel ((c :: t).drop (max whole 1))

/-- `re.findall(pattern, s)` for the alternation-with-tail patterns. -/
def pyFindallAlts (alts : List RxAlt) (groupOnly : Bool) (s : String) : List String :=
  scanMatches alts groupOnly s.data.length s.data

/-- Separator class `[:\-\s]` of the key-finding patterns. -/
def isSepClass (c : Char) : Bool :=
  c = ':' || c = '-' || isPyWs c

/-- After the stem (and optional `s`) of a key-finding pattern: one
separator character, then the greedy non-empty capture `([^.]+)`. -/
def matchSepCapture (r : List Char) : Option (List Char) :=
  match r with
  | [] => none
  | c :: r2 =>
    if isSepClass c then
      let cap := r2.takeWhile (fun ch => ch ≠ '.')
      if cap.isEmpty then none else some cap
    else none

/-- Match `stem[s]?[:\-\s]([^.]+)` at the head of `s`; greedy on the
optional `s` with backtracking. -/
def matchKeyPatternAt (stem : List Char) (s : List Char) : Option (List Char) :=
  if stem.isPrefixOf s then
    let rest := s.drop stem.length
    let withS : Option (List Char) :=
      match rest with
      | 's' :: r2 => matchSepCapture r2
      | _ => none
    match withS with
    | some cap => some cap
    | none => matchSepCapture rest
  else none

/-- First (leftmost) capture of `stem[s]?[:\-\s]([^.]+)` in `s`;
`re.findall(...)[0]` combined with the `if matches:` emptiness test. -/
def findFirstCapture (stem : List Char) : List Char → Option (List Char)
  | [] => none
  | c :: t =>
    match matchKeyPatternAt stem (c :: t) with
    | some cap => some cap
    | none => findFirstCapture stem t

/-! ### Recommendation synthesizer (`clinical_processor.py`) -/

/-- `_extract_key_finding` (source lines 437-459): try the
conclusion/results/findings labelled patterns in order, else fall back to
the first sentence; the final branch is the (unreachable) default. -/
def extractKeyFinding (content : String) : String :=
  match findFirstCapture "conclusion".data (pyToLower content).data with
  | some cap => pyTakeStr 200 (pyStripStr ⟨cap⟩) ++ "..."
  | none =>
    match findFirstCapture "result".data (pyToLower content).data with
    | some cap => pyTakeStr 200 (pyStripStr ⟨cap⟩) ++ "..."
    | none =>
      match findFirstCapture "finding".data (pyToLower content).data with
      | some cap => pyTakeStr 200 (pyStripStr ⟨cap⟩) ++ "..."
      | none =>
        match pySplitStr ". " content with
        | s :: _ => pyTakeStr 200 s ++ "..."
        | [] => "Key finding not extracted"

/-- The study-type label table of `_identify_study_type` (source line 466),
in order. -/
def studyTypeLabels : List (String × String) :=
  [("randomized controlled trial", "RCT"),
   ("systematic review", "Systematic Review"),
   ("meta-analysis", "Meta-Analysis"),
   ("cohort study", "Cohort Study"),
   ("case-control study", "Case-Control Study"),
   ("case series", "Case Series"),
   ("case report", "Case Report"),
   ("observational study", "Observational Study"),
   ("clinical trial", "Clinical Trial")]

def identifyStudyTypeAux (content : String) : List (String × String) → String
  | [] => "Research Study"
  | (pat, label) :: rest =>
    if strContains content pat then label else identifyStudyTypeAux content rest

/-- `_identify_study_type` (source lines 461-482). -/
def identifyStudyType (d : Document) : String :=
  identifyStudyTypeAux (pyToLower (d.title ++ " " ++ d.content)) studyTypeLabels

/-- One supporting-evidence item (source lines 424-432). -/
structure EvidenceItem where
  pmid : Option String
  title : String
  journal : String
  pub_date : String
  relevance_score : ℚ
  key_finding : String
  study_type : String
deriving DecidableEq, Repr

/-- `_extract_supporting_evidence` (source lines 418-435). -/
def extractSupportingEvidence (docs : List Document) : List EvidenceItem :=
  (docs.take 5).map (fun d =>
    { pmid := d.pmid
      title := d.title
      journal := d.journal
      pub_date := d.pub_date
      relevance_score := d.score
      key_finding := extractKeyFinding d.content
      study_type := identifyStudyType d })

/-- Alternation of the first conclusion-verbs pattern of
`_generate_primary_recommendation` (source line 388). -/
def primaryAlts1 : List RxAlt :=
  [⟨"recommend", none⟩, ⟨"suggest", some 's'⟩, ⟨"indicate", some 's'⟩,
   ⟨"show", some 's'⟩, ⟨"demonstrate", some 's'⟩, ⟨"conclude", some 's'⟩,
   ⟨"finding", some 's'⟩]

/-- Alternation of the second pattern (source line 389). -/
def primaryAlts2 : List RxAlt :=
  [⟨"treatment", none⟩, ⟨"therapy", none⟩, ⟨"intervention", none⟩,
   ⟨"management", none⟩]

/-- Alternation of the third pattern (source line 390). -/
def primaryAlts3 : List RxAlt :=
  [⟨"effective", none⟩, ⟨"efficacy", none⟩, ⟨"beneficial", none⟩,
   ⟨"improvement", none⟩, ⟨"reduction", none⟩]

/-- Key findings collected per document: for each pattern in order, the
first two group matches over `content.lower()` (the patterns have one
group, so `re.findall` returns the group strings). -/
def docKeyFindings (d : Document) : List String :=
  (pyFindallAlts primaryAlts1 true (pyToLower d.content)).take 2
    ++ (pyFindallAlts primaryAlts2 true (pyToLower d.content)).take 2
    ++ (pyFindallAlts primaryAlts3 true (pyToLower d.content)).take 2

/-- `_generate_primary_recommendation` (source lines 371-416);
`patient_context` is accepted and unused, as in the source. -/
def generatePrimaryRecommendation (query : String) (docs : List Document)
    (patient_context : Option PatientContext) : String :=
  let key_findings := (docs.take 3).flatMap docKeyFindings
  if key_findings.isEmpty then
    "Based on available evidence, consult with your healthcare provider for personalized recommendations appropriate to your specific clinical situation."
  else
    let numbered := (key_findings.take 3).enum.map
      (fun p => toString (p.1 + 1) ++ ". " ++ pyStripStr p.2)
    String.intercalate " "
      (["Based on current medical literature:",
        "Evidence from " ++ toString docs.length ++ " recent studies suggests:"]
        ++ numbered
        ++ ["", "However, individual patient factors must be considered.",
            "Please discuss these findings with your healthcare provider for personalized medical advice."])

/-- The five contraindication patterns of `_identify_contraindications`
(source lines 504-510), each a separate regex with no group, so
`re.findall` returns whole matches including the `[^.]*` tail. -/
def contraindicationPatterns : List (List RxAlt) :=
  [[⟨"contraindicate", some 'd'⟩],
   [⟨"not recommended", none⟩],
   [⟨"avoid", none⟩],
   [⟨"caution", none⟩],
   [⟨"warning", none⟩]]

/-- Matches contributed by one document: for each pattern, the first two
matches whose stripped text is longer than 10 characters, each stripped
and truncated to 150 characters. -/
def docContraindications (d : Document) : List String :=
  contraindicationPatterns.flatMap (fun alts =>
    ((pyFindallAlts alts false (pyToLower d.content)).take 2).filterMap (fun m =>
      if (pyStripStr m).length > 10 then some (pyTakeStr 150 (pyStripStr m)) else none))

/-- `_identify_contraindications` (source lines 484-518);
`patient_context` is accepted and unused, as in the source. -/
def identifyContraindications (docs : List Document)
    (patient_context : Option PatientContext) : List String :=
  (["Consult healthcare provider before making any clinical decisions",
    "Consider individual patient factors and medical history",
    "Verify drug interactions and allergies"]
    ++ (docs.take 3).flatMap docContraindications).take 7

/-- `_generate_follow_up_actions` (source lines 520-558); only the query
text is inspected. -/
def generateFollowUpActions (query : String) : List String :=
  let ql := pyToLower query
  let base := ["Discuss findings with your primary care provider",
               "Schedule appropriate follow-up appointments",
               "Monitor for any adverse effects or changes"]
  let a1 := if ["medication", "drug", "treatment"].any (fun t => strContains ql t) then
      ["Verify correct dosage and administration",
       "Check for drug interactions",
       "Monitor therapeutic response"]
    else []
  let a2 := if ["diagnosis", "symptom", "condition"].any (fun t => strContains ql t) then
      ["Consider additional diagnostic tests if indicated",
       "Monitor symptom progression",
       "Seek immediate care for concerning symptoms"]
    else []
  let a3 := if ["surgery", "procedure", "operation"].any (fun t => strContains ql t) then
      ["Discuss risks and benefits with surgeon",
       "Obtain second opinion if appropriate",
       "Review pre and post-operative care"]
    else []
  (base ++ a1 ++ a2 ++ a3).take 6

/-- The sentence shared by every disclaimer string in the source. -/
def disclaimerCore : String :=
  "This system provides general information only and should not replace professional medical advice."

/-- The disclaimer of the normal branch (source line 282). -/
def disclaimerFull : String :=
  "This system provides general information only and should not replace professional medical advice. Always consult with qualified healthcare providers for clinical decisions."

/-- Result dictionary of `generate_recommendations`.  The
`processing_time` key (wall-clock seconds) is not embedded;
`evidence_summary` is only present on the normal branch, hence an
`Option`. -/
structure Recommendation where
  primary_recommendation : String
  evidence_level : String
  confidence_score : ℚ
  supporting_evidence : List EvidenceItem
  contraindications : List String
  follow_up_actions : List String
  evidence_summary : Option String
  disclaimer : String
deriving DecidableEq, Repr

/-- `generate_recommendations` (source lines 219-283), success path: the
no-evidence short circuit (lines 233-243) and the normal path.  `year`
stands for `datetime.now().year`; the `model`/`tokenizer` arguments of the
source are unused there and omitted here. -/
def generateRecommendations (year : Nat) (query : String)
    (patient_context : Option PatientContext) (relevant_documents : List Document) :
    Recommendation :=
  match relevant_documents with
  | [] =>
    { primary_recommendation :=
        "Insufficient evidence found. Please consult with a healthcare provider."
      evidence_level := "Low"
      confidence_score := 1/10
      supporting_evidence := []
      contraindications := ["Consult healthcare provider before any clinical decisions"]
      follow_up_actions := ["Seek professional medical advice"]
      evidence_summary := none
      disclaimer := disclaimerCore }
  | _ =>
    let ea := analyzeEvidenceQuality year relevant_documents
    { primary_recommendation :=
        generatePrimaryRecommendation query relevant_documents patient_context
      evidence_level := ea.level
      confidence_score := calcConfidenceScore ea relevant_documents
      supporting_evidence := extractSupportingEvidence relevant_documents
      contraindications := identifyContraindications relevant_documents patient_context
      follow_up_actions := generateFollowUpActions query
      evidence_summary := some ea.summary
      disclaimer := disclaimerFull }

/-- The `except` fallback of `generate_recommendations` (source lines
285-296), returned when the body raises an exception with text `e`; the
exception text is logged but never placed in the response. -/
def generateRecommendationsError (e : String) : Recommendation :=
  { primary_recommendation :=
      "Error generating recommendations. Please consult with a healthcare provider."
    evidence_level := "Unknown"
    confidence_score := 0
    supporting_evidence := []
    contraindications := ["System error - consult healthcare provider"]
    follow_up_actions := ["Seek immediate professional medical advice"]
    evidence_summary := none
    disclaimer := disclaimerCore }

/-! ### RAG service (`rag_service.process_query`, lines 74-185)

The retrieval steps are I/O against external collaborators; the embedding
takes the list of relevant documents produced by them as an argument.  An
uncaught exception inside the `try` block (every service call catches its
own errors, but e.g. a caller-supplied websocket callback can raise) is
modelled by the `exn` argument carrying the exception text; the `except`
branch (lines 178-185) then builds the error dictionary, whose only fields
are `query`, `timestamp`, `error` and `details`. -/

structure SourceItem where
  pmid : Option String
  title : String
  journal : String
  pub_date : String
  relevance_score : ℚ
  url : String
deriving DecidableEq, Repr

/-- One entry of the `sources` projection (source lines 160-168);
`f"...{doc.get('pmid')}/"` renders a missing pmid as `None`. -/
def mkSourceItem (d : Document) : SourceItem :=
  { pmid := d.pmid
    title := d.title
    journal := d.journal
    pub_date := d.pub_date
    relevance_score := d.score
    url := "https://pubmed.ncbi.nlm.nih.gov/" ++
      (match d.pmid with | some p => p | none => "None") ++ "/" }

/-- Response of `process_query`: the success dictionary or the error
dictionary (the `timestamp` field, wall-clock, is not embedded). -/
inductive RagResponse where
  | success (query : String) (recommendations : Recommendation)
      (sources : List SourceItem) (confidence_score : ℚ) : RagResponse
  | failure (query : String) (error : String) (details : String) : RagResponse
deriving DecidableEq, Repr

/-- `process_query` (source lines 74-185). -/
def processQuery (year : Nat) (query : String) (patient_context : Option PatientContext)
    (relevant_docs : List Document) (exn : Option String) : RagResponse :=
  match exn with
  | some e => .failure query "Failed to process clinical query" e
  | none =>
    let recs := generateRecommendations year query patient_context relevant_docs
    .success query recs ((relevant_docs.take 5).map mkSourceItem) recs.confidence_score

/-- Whether any textual field of a response contains the fixed medical
disclaimer sentence. -/
def responseContainsDisclaimer : RagResponse → Bool
  | .success _ recs _ _ => strContains recs.disclaimer disclaimerCore
  | .failure q err det =>
    strContains q disclaimerCore || strContains err disclaimerCore
      || strContains det disclaimerCore

/-! ### Entity and query expander (`clinical_processor.py`, lines 38-217)

The four regex batteries are alternations of literal phrases wrapped in
word boundaries.  Every phrase starts and ends with a word character
(`[A-Za-z0-9_]` - the inputs inspected are ASCII), so a match of a phrase
is exactly an occurrence of it as a substring whose neighbours, when
present, are non-word characters.

The source stores the patterns in Python sets and deduplicates the final
entity list with `list(set(entities))`: both set iterations have
unspecified order.  Downstream the entity list is only ever consumed up to
its set of elements (it is fed into another `set` in
`_generate_search_terms`), so `extractClinicalEntities` below returns the
matched phrases in the fixed order of `clinicalKeywords`; only its
membership and emptiness are used in the theorems. -/

/-- All alternatives of the four pattern batteries (source lines 40-62):
conditions, medications, procedures, vital signs. -/
def clinicalKeywords : List String :=
  ["hypertension", "diabetes", "asthma", "copd", "cancer", "pneumonia",
   "sepsis", "stroke", "myocardial infarction", "heart failure",
   "acute coronary syndrome", "atrial fibrillation",
   "congestive heart failure", "chronic kidney disease",
   "depression", "anxiety", "bipolar", "schizophrenia", "dementia",
   "alzheimer",
   "covid-19", "coronavirus", "sars-cov-2", "influenza", "tuberculosis",
   "hiv", "hepatitis",
   "aspirin", "metformin", "lisinopril", "atorvastatin", "amlodipine",
   "metoprolol", "omeprazole",
   "warfarin", "heparin", "insulin", "albuterol", "prednisone",
   "azithromycin", "amoxicillin",
   "morphine", "fentanyl", "tramadol", "ibuprofen", "acetaminophen",
   "gabapentin",
   "surgery", "operation", "procedure", "biopsy", "catheterization",
   "intubation", "ventilation",
   "ct scan", "mri", "x-ray", "ultrasound", "ecg", "ekg", "echocardiogram",
   "blood test", "urinalysis", "culture", "pathology", "histology",
   "blood pressure", "heart rate", "temperature", "oxygen saturation",
   "respiratory rate",
   "bp", "hr", "temp", "o2 sat", "rr", "spo2"]

/-- Regex word character `\w` (ASCII part). -/
def isWordChar (c : Char) : Bool :=
  c.isAlphanum || c = '_'

/-- The phrase `kw` matches at position `i` of `s` with `\b` on both
sides. -/
def wordOccursAt (kw s : List Char) (i : Nat) : Bool :=
  kw.isPrefixOf (s.drop i)
    && (decide (i = 0) || !isWordChar (s.getD (i - 1) ' '))
    && !isWordChar (s.getD (i + kw.length) ' ')

/-- The phrase `kw` has a whole-word occurrence somewhere in `s`. -/
def hasWordOccurrence (kw s : String) : Bool :=
  (List.range (s.data.length + 1)).any (wordOccursAt kw.data s.data)

/-- `_extract_clinical_entities` (source lines 106-131), up to the
unspecified order of `list(set(...))`: the set of matched phrases, listed
in the fixed order of `clinicalKeywords`. -/
def extractClinicalEntities (query : String) : List String :=
  clinicalKeywords.filter (fun kw => hasWordOccurrence kw query)

/-- `_get_age_group` (source lines 210-217). -/
def getAgeGroup (age : Int) : String :=
  if age < 18 then "pediatric" else if age < 65 then "adult" else "geriatric"

/-- The term pool of `_generate_search_terms` before stripping and
deduplication (source lines 141-160): query, then entities, then
patient-context terms (age group when `age` is present and nonzero -
Python truthiness - then gender when present and non-empty, then the
existing conditions). -/
def searchTermPool (query : String) (entities : List String)
    (patient_context : Option PatientContext) : List String :=
  [query] ++ entities ++
    (match patient_context with
     | none => []
     | some pc =>
       (match pc.age with
        | some a => if a ≠ 0 then [getAgeGroup a] else []
        | none => []) ++
       (match pc.gender with
        | some g => if g ≠ "" then [g] else []
        | none => []) ++
       pc.existing_conditions)

/-- `[term.strip() for term in search_terms if term.strip()]`
(source line 163). -/
def strippedPool (query : String) (entities : List String)
    (patient_context : Option PatientContext) : List String :=
  (searchTermPool query entities patient_context).filterMap (fun t =>
    if pyStripStr t = "" then none else some (pyStripStr t))

/-- `_generate_search_terms` (source lines 133-165).  The source computes
`list(set(stripped))[:10]`; iteration order over a Python `set` of strings
is unspecified (and hash-randomized), so the function is embedded as the
relation between its inputs and the possible results: some duplicate-free
enumeration `out` of the stripped pool, truncated to 10. -/
def GenerateSearchTermsRel (query : String) (entities : List String)
    (patient_context : Option PatientContext) (result : List String) : Prop :=
  ∃ out : List String, out.Nodup ∧
    (∀ x, x ∈ out ↔ x ∈ strippedPool query entities patient_context) ∧
    result = out.take 10

/-- Order-preserving deduplication, written from the specification's words
("deduplicated while preserving first-seen order"): keep the first
occurrence of each term.  Fuel (instantiated with the list length, an
upper bound on the number of steps) keeps the definition structurally
recursive and hence kernel-evaluable. -/
def dedupFirstSeenAux : Nat → List String → List String
  | 0, _ => []
  | _ + 1, [] => []
  | fuel + 1, x :: xs => x :: dedupFirstSeenAux fuel (xs.filter (fun y => y ≠ x))

/-- Order-preserving deduplication (see `dedupFirstSeenAux`). -/
def dedupFirstSeen (l : List String) : List String :=
  dedupFirstSeenAux l.length l

/-! ### Vector database service (`vector_db_service.py`)

ChromaDB is an external collaborator; the index is modelled by its list of
stored ids in arrival order, `collection.count()` by its length, and
`collection.add` by appending the given ids (the raw add, with no
deduplication of its own - all deduplication the repository performs is in
`_filter_new_documents`).  `hashlib.md5` is modelled by an injective
fingerprint of its input (`DocId.contentHash` keeps the hashed text): the
claims depend only on equal inputs producing equal digests, and the two id
shapes (`pmid_<pmid>` and a 32-character hex digest) never collide in
reality, which the two constructors reflect. -/

inductive DocId where
  | pmidId (p : String) : DocId
  | contentHash (text : String) : DocId
deriving DecidableEq, Repr

/-- `_generate_doc_id` (source lines 213-222): `pmid_<pmid>` when a pmid
is present and truthy (non-empty), else the hash of title + abstract. -/
def generateDocId (d : Document) : DocId :=
  match d.pmid with
  | some p => if p ≠ "" then .pmidId p else .contentHash (d.title ++ d.abstract)
  | none => .contentHash (d.title ++ d.abstract)

/-- `_filter_new_documents` (source lines 188-211): when the collection
holds fewer than 10000 documents the existing ids are fetched, otherwise
the set of existing ids is left empty and every document is treated as
new. -/
def filterNewDocuments (ids : List DocId) (documents : List Document) : List Document :=
  let existing : List DocId := if ids.length < 10000 then ids else []
  documents.filter (fun d => !(decide (generateDocId d ∈ existing)))

/-- `add_documents` (source lines 60-121) acting on the id list of the
collection: empty batches are a no-op, otherwise the documents surviving
`_filter_new_documents` are added. -/
def addDocuments (ids : List DocId) (documents : List Document) : List DocId :=
  match documents with
  | [] => ids
  | _ => ids ++ (filterNewDocuments ids documents).map generateDocId

/-! ### Similarity search (`vector_db_service.similarity_search`, lines
123-186)

The ChromaDB query is external I/O; its response is modelled as the list
of raw results (document text, metadata, embedding distance) in the order
the index returned them.  The repository code converts each entry to a
document dictionary with `score = 1 - distance` and then filters by the
similarity threshold; it performs no sorting of its own. -/

/-- `SIMILARITY_THRESHOLD` (utils/config.py line 44). -/
def SIMILARITY_THRESHOLD : ℚ := 7/10

/-- One raw entry of the ChromaDB query response. -/
structure RawResult where
  content : String
  pmid : Option String
  title : String
  journal : String
  pub_date : String
  distance : ℚ
deriving DecidableEq, Repr

/-- A processed search result (the dictionary built in lines 160-171,
restricted to the embedded fields). -/
structure SearchResultDoc where
  pmid : Option String
  title : String
  journal : String
  pub_date : String
  content : String
  score : ℚ
deriving DecidableEq, Repr

/-- Conversion of one raw entry (`score = 1 - distance`, line 167). -/
def processRawResult (r : RawResult) : SearchResultDoc :=
  { pmid := r.pmid
    title := r.title
    journal := r.journal
    pub_date := r.pub_date
    content := r.content
    score := 1 - r.distance }

/-- The result-processing and threshold-filtering part of
`similarity_search` (lines 152-182). -/
def similaritySearchProcess (raw : List RawResult) : List SearchResultDoc :=
  (raw.map processRawResult).filter (fun d => decide (d.score ≥ SIMILARITY_THRESHOLD))

/-- Lexicographic comparison of character lists (agrees with Python string
comparison on ASCII text, hence with chronological order on
`YYYY[-MM[-DD]]` date strings of equal layout). -/
def charListLt : List Char → List Char → Bool
  | [], [] => false
  | [], _ :: _ => true
  | _ :: _, [] => false
  | a :: as, b :: bs => if a < b then true else if b < a then false else charListLt as bs

/-- The ordering the specification claims for search results, written from
the claim's words: descending similarity score, ties broken by
more-recent publication date, then by arrival order (so an earlier-listed
document must not have a strictly older date than a later-listed one with
the same score). -/
def SpecSearchOrdered (l : List SearchResultDoc) : Prop :=
  l.Pairwise (fun a b =>
    a.score > b.score ∨
      (a.score = b.score ∧ charListLt a.pub_date.data b.pub_date.data = false))

lemma volumeTerm_nonneg (n : Nat) :
    (0 : ℚ) ≤ (if n ≥ 5 then (3 : ℚ)/10 else if n ≥ 3 then 2/10 else if n ≥ 1 then 1/10 else 0) := by
  split_ifs <;> norm_num

lemma volumeTerm_ge (n : Nat) (h : 1 ≤ n) :
    (1 : ℚ)/10 ≤ (if n ≥ 5 then (3 : ℚ)/10 else if n ≥ 3 then 2/10 else if n ≥ 1 then 1/10 else 0) := by
  split_ifs <;> norm_num

lemma calcConfidenceScore_nonneg (ea : EvidenceAnalysis) (documents : List Document) :
    0 ≤ calcConfidenceScore ea documents := by
  unfold calcConfidenceScore
  have h1 := ratio_nonneg ea.recent_papers ea.total_papers
  have h2 := ratio_nonneg ea.high_impact_journals ea.total_papers
  have h3 := evidenceScoreOf_nonneg ea.level
  have h4 := volumeTerm_nonneg documents.length
  apply le_min
  · nlinarith
  · norm_num

lemma calcConfidenceScore_le (ea : EvidenceAnalysis) (documents : List Document) :
    calcConfidenceScore ea documents ≤ 95/100 :=
  min_le_right _ _

lemma calcConfidenceScore_ge_half (ea : EvidenceAnalysis) (documents : List Document)
    (h : documents ≠ []) : 1/2 ≤ calcConfidenceScore ea documents := by
  unfold calcConfidenceScore
  have h1 := ratio_nonneg ea.recent_papers ea.total_papers
  have h2 := ratio_nonneg ea.high_impact_journals ea.total_papers
  have h3 := evidenceScoreOf_ge ea.level
  have h4 : (1 : ℚ)/10 ≤
      (if documents.length ≥ 5 then (3 : ℚ)/10 else if documents.length ≥ 3 then 2/10
       else if documents.length ≥ 1 then 1/10 else 0) := by
    apply volumeTerm_ge
    have : documents.length ≠ 0 := fun hh => h (List.length_eq_zero.mp hh)
    omega
  apply le_min
  · nlinarith
  · norm_num

/-- The evidence-level thresholds as the specification words them, in
strict order: High iff average at least 6 and high-impact count at least
2; else Moderate iff average at least 4 and document count at least 3;
else Low iff average at least 2; else Very Low. -/
def specEvidenceLevel (avg : ℚ) (high_impact_count evidence_count : Nat) : String :=
  if avg ≥ 6 ∧ high_impact_count ≥ 2 then "High"
  else if avg ≥ 4 ∧ evidence_count ≥ 3 then "Moderate"
  else if avg ≥ 2 then "Low"
  else "Very Low"

/-- The per-document score as the specification words it: start at 1, add
2 for a high-impact journal, add the study-design bonus of the first
matching pattern, add 1 only for a publication date in the current
calendar year (the source tests the year by string prefix). -/
def specDocScore (year : Nat) (d : Document) : Nat :=
  1 + (if journalHighImpact d then 2 else 0) + studyBonus d
    + (if d.pub_date ≠ "" ∧ strStarts d.pub_date (toString year) then 1 else 0)

/-! ### Claim theorems -/

/-- Claim C1: for every evidence assessment and document list the
confidence scorer returns exactly the specification's clamped weighted sum
min(0.95, 0.3 + evidence-level term + volume term + 0.2 * recent ratio +
0.1 * high-impact ratio), and the result always lies in [0, 0.95]. -/
theorem claim_C1_confidence_formula (ea : EvidenceAnalysis) (documents : List Document) :
    calcConfidenceScore ea documents = specConfidenceFormula ea documents ∧
    0 ≤ calcConfidenceScore ea documents ∧
    calcConfidenceScore ea documents ≤ 95/100 := by
  refine ⟨?_, calcConfidenceScore_nonneg ea documents, calcConfidenceScore_le ea documents⟩
  have hev : evidenceScoreOf ea.level =
      (if ea.level = "High" then (4 : ℚ)/10 else if ea.level = "Moderate" then 3/10
       else if ea.level = "Low" then 2/10 else if ea.level = "Very Low" then 1/10
       else 1/10) := by
    unfold evidenceScoreOf
    split_ifs <;> rfl
  unfold calcConfidenceScore specConfidenceFormula
  rw [min_comm, hev]
  ring_nf

/-- Claim C2: with an empty document list `generate_recommendations`
short-circuits to the fixed safety response (level Low, confidence 0.1,
primary text mentioning "consult"), and over all document lists the
returned confidence is 0.1 exactly when the list is empty. -/
theorem claim_C2_empty_shortcircuit (year : Nat) (query : String)
    (patient_context : Option PatientContext) (docs : List Document) :
    generateRecommendations year query patient_context [] =
      { primary_recommendation :=
          "Insufficient evidence found. Please consult with a healthcare provider."
        evidence_level := "Low"
        confidence_score := 1/10
        supporting_evidence := []
        contraindications := ["Consult healthcare provider before any clinical decisions"]
        follow_up_actions := ["Seek professional medical advice"]
        evidence_summary := none
        disclaimer := disclaimerCore } ∧
    strContains
      (generateRecommendations year query patient_context []).primary_recommendation
      "consult" = true ∧
    ((generateRecommendations year query patient_context docs).confidence_score = 1/10 ↔
      docs = []) := by
  refine ⟨rfl, rfl, ?_, fun hd => by subst hd; rfl⟩
  intro hconf
  cases docs with
  | nil => rfl
  | cons d t =>
    exfalso
    have hge := calcConfidenceScore_ge_half
      (analyzeEvidenceQuality year (d :: t)) (d :: t) (by simp)
    have : (generateRecommendations year query patient_context (d :: t)).confidence_score =
        calcConfidenceScore (analyzeEvidenceQuality year (d :: t)) (d :: t) := rfl
    rw [this] at hconf
    rw [hconf] at hge
    norm_num at hge

/-- Witness for claim C2: the empty list yields confidence 0.1, and a
concrete one-document list does not. -/
theorem claim_C2_witness :
    (generateRecommendations 2026 "chest pain" none []).confidence_score = 1/10 ∧
    (generateRecommendations 2026 "chest pain" none
        [⟨none, "t", "a", "c", "j", "2024", 0⟩]).confidence_score ≠ 1/10 := by
  constructor
  · exact (claim_C2_empty_shortcircuit 2026 "chest pain" none []).2.2.mpr rfl
  · intro h
    have := (claim_C2_empty_shortcircuit 2026 "chest pain" none
      [⟨none, "t", "a", "c", "j", "2024", 0⟩]).2.2.mp h
    simp at this

/-- Claim C3: the evidence level is computed by the specification's
thresholds in strict order, and with fewer than two high-impact documents
the level is never High (in particular not for a single
high-impact-journal document with average score above 6). -/
theorem claim_C3_evidence_level (year : Nat) (docs : List Document) :
    (analyzeEvidenceQuality year docs).level =
      specEvidenceLevel (analyzeEvidenceQuality year docs).average_score
        (analyzeEvidenceQuality year docs).high_impact_journals
        (analyzeEvidenceQuality year docs).total_papers ∧
    ((analyzeEvidenceQuality year docs).high_impact_journals < 2 →
      (analyzeEvidenceQuality year docs).level ≠ "High") := by
  constructor
  · rfl
  · intro hlt hhigh
    have heq : specEvidenceLevel (analyzeEvidenceQuality year docs).average_score
        (analyzeEvidenceQuality year docs).high_impact_journals
        (analyzeEvidenceQuality year docs).total_papers = "High" := hhigh
    unfold specEvidenceLevel at heq
    split_ifs at heq with h1 h2 h3
    · omega
    · exact absurd heq (by decide)
    · exact absurd heq (by decide)
    · exact absurd heq (by decide)

/-- Witness for claim C3: one Lancet RCT published in the current year has
average score 9 (above 6) but only one high-impact document, so the level
is not High (it is Low). -/
theorem claim_C3_witness :
    (analyzeEvidenceQuality 2026
        [⟨none, "randomized controlled trial of X", "", "", "lancet", "2026", 0⟩]).average_score
        ≥ 6 ∧
    (analyzeEvidenceQuality 2026
        [⟨none, "randomized controlled trial of X", "", "", "lancet", "2026", 0⟩]).high_impact_journals
        = 1 ∧
    (analyzeEvidenceQuality 2026
        [⟨none, "randomized controlled trial of X", "", "", "lancet", "2026", 0⟩]).level
        ≠ "High" := by
  have hds : docScore 2026
      ⟨none, "randomized controlled trial of X", "", "", "lancet", "2026", 0⟩ = 9 := by
    decide
  refine ⟨?_, by decide, ?_⟩
  · unfold analyzeEvidenceQuality
    simp only [List.map_cons, List.map_nil, List.sum_cons, List.sum_nil, hds,
      List.length_cons, List.length_nil]
    norm_num
  · exact (claim_C3_evidence_level 2026
      [⟨none, "randomized controlled trial of X", "", "", "lancet", "2026", 0⟩]).2 (by decide)

/-- Claim C4: the per-document score is 1, plus 2 for a high-impact
journal, plus the first matching study-design bonus, plus 1 only for a
current-year publication date; a previous-year date adds 1 to the
recent-paper tally and 0 to the score. -/
theorem claim_C4_doc_score (year : Nat) (d : Document) :
    docScore year d = specDocScore year d ∧
    (strStarts d.pub_date (toString (year - 1)) = true →
      strStarts d.pub_date (toString year) = false →
      d.pub_date ≠ "" →
      recencyInfo year d = (0, 1)) := by
  constructor
  · unfold docScore specDocScore recencyInfo
    split_ifs <;> rfl
  · intro h1 h2 h3
    unfold recencyInfo
    rw [if_neg (by simp [h2]), if_pos ⟨h3, h1⟩]

/-- Witness for claim C4: a document dated 2025 seen in year 2026
contributes (0, 1): nothing to its score, one to the recent tally. -/
theorem claim_C4_witness :
    docScore 2026 ⟨none, "cohort study of Y", "", "", "j", "2025", 0⟩ =
      specDocScore 2026 ⟨none, "cohort study of Y", "", "", "j", "2025", 0⟩ ∧
    recencyInfo 2026 ⟨none, "cohort study of Y", "", "", "j", "2025", 0⟩ = (0, 1) := by
  refine ⟨(claim_C4_doc_score 2026 _).1, ?_⟩
  exact (claim_C4_doc_score 2026 ⟨none, "cohort study of Y", "", "", "j", "2025", 0⟩).2
    (by decide) (by decide) (by decide)

lemma pySplitAux_ne_nil (sep : List Char) :
    ∀ (fuel : Nat) (s cur : List Char), pySplitAux sep fuel s cur ≠ [] := by
  intro fuel
  induction fuel with
  | zero => intro s cur; simp [pySplitAux]
  | succ n ih =>
    intro s cur
    cases s with
    | nil => simp [pySplitAux]
    | cons c t =>
      rw [pySplitAux]
      split
      · simp
      · exact ih _ _

lemma pySplitStr_ne_nil (sep s : String) : pySplitStr sep s ≠ [] := by
  unfold pySplitStr
  simp [pySplitAux_ne_nil]

lemma strEnds_append (x : String) : strEnds (x ++ "...") "..." = true := by
  unfold strEnds
  have h : ("..." : String).data <:+ (x ++ "...").data := by
    refine ⟨x.data, ?_⟩
    rfl
  exact List.isSuffixOf_iff_suffix.mpr h

lemma extractKeyFinding_ends (content : String) :
    ∃ t, extractKeyFinding content = t ++ "..." := by
  unfold extractKeyFinding
  cases h1 : findFirstCapture "conclusion".data (pyToLower content).data with
  | some cap => exact ⟨_, rfl⟩
  | none =>
    cases h2 : findFirstCapture "result".data (pyToLower content).data with
    | some cap => exact ⟨_, rfl⟩
    | none =>
      cases h3 : findFirstCapture "finding".data (pyToLower content).data with
      | some cap => exact ⟨_, rfl⟩
      | none =>
        cases h4 : pySplitStr ". " content with
        | nil => exact absurd h4 (pySplitStr_ne_nil _ _)
        | cons st rest => exact ⟨_, rfl⟩

/-- Claim C10: `_extract_key_finding` always returns a string ending in
"..." (the ellipsis is appended in every reachable branch), splitting any
content on ". " is non-empty, and the "Key finding not extracted" default
is unreachable. -/
theorem claim_C10_key_finding (content : String) :
    strEnds (extractKeyFinding content) "..." = true ∧
    pySplitStr ". " content ≠ [] ∧
    extractKeyFinding content ≠ "Key finding not extracted" := by
  obtain ⟨t, ht⟩ := extractKeyFinding_ends content
  refine ⟨ht ▸ strEnds_append t, pySplitStr_ne_nil _ _, ?_⟩
  intro hbad
  rw [hbad] at ht
  have : strEnds "Key finding not extracted" "..." = true := ht ▸ strEnds_append t
  exact absurd this (by decide)

/-- Witness for claim C10 at concrete inputs: an empty content and a
labelled conclusion both end in "...". -/
theorem claim_C10_witness :
    strEnds (extractKeyFinding "") "..." = true ∧
    strEnds (extractKeyFinding "Conclusion: drug Z helps. More text.") "..." = true :=
  ⟨(claim_C10_key_finding "").1,
   (claim_C10_key_finding "Conclusion: drug Z helps. More text.").1⟩

lemma strippedPool_query_only (q : String) :
    strippedPool q [] none = if pyStripStr q = "" then [] else [pyStripStr q] := by
  unfold strippedPool searchTermPool
  by_cases h : pyStripStr q = "" <;> simp [List.filterMap_cons, h]

lemma nodup_mem_iff_singleton {a : String} {out : List String} (hnd : out.Nodup)
    (hmem : ∀ x, x ∈ out ↔ x ∈ [a]) : out = [a] := by
  cases out with
  | nil => exact absurd ((hmem a).mpr (by simp)) (by simp)
  | cons x t =>
    have hx : x = a := by
      have := (hmem x).mp (List.mem_cons_self x t)
      simpa using this
    subst hx
    cases t with
    | nil => rfl
    | cons y u =>
      have hy : y = x := by
        have := (hmem y).mp (by simp)
        simpa using this
      exfalso
      rw [List.nodup_cons] at hnd
      exact hnd.1 (by simp [hy])

/-- Claim C5, corrected: the search-term list is built by stripping each
term, dropping empties, deduplicating and truncating to at most 10 - but
the deduplication passes through a Python `set`, so the order is
unspecified rather than first-seen.  Every possible result has length at
most 10, no duplicates, and only terms from the stripped pool. -/
theorem claim_C5_search_terms (query : String) (entities : List String)
    (patient_context : Option PatientContext) (result : List String)
    (h : GenerateSearchTermsRel query entities patient_context result) :
    result.length ≤ 10 ∧ result.Nodup ∧
    ∀ x ∈ result, x ∈ strippedPool query entities patient_context := by
  obtain ⟨out, hnd, hmem, rfl⟩ := h
  refine ⟨?_, ?_, ?_⟩
  · rw [List.length_take]
    exact min_le_left _ _
  · exact List.Nodup.sublist (List.take_sublist _ _) hnd
  · intro x hx
    exact (hmem x).mp (List.mem_of_mem_take hx)

/-- Witness for claim C5 at a concrete input. -/
theorem claim_C5_witness :
    GenerateSearchTermsRel "a" [] none ["a"] ∧
    (["a"] : List String).length ≤ 10 ∧ (["a"] : List String).Nodup ∧
    ∀ x ∈ (["a"] : List String), x ∈ strippedPool "a" [] none := by
  have hrel : GenerateSearchTermsRel "a" [] none ["a"] :=
    ⟨["a"], by decide, fun x => by rw [show strippedPool "a" [] none = ["a"] from rfl], rfl⟩
  exact ⟨hrel, claim_C5_search_terms "a" [] none ["a"] hrel⟩

/-- Counterexample to claim C5 as stated: for query "a" and entity list
["b"], the code (a `set` enumeration truncated to 10) can return
["b", "a"], which differs from the first-seen-order deduplication
["a", "b"] the claim requires. -/
theorem claim_C5_counterexample :
    GenerateSearchTermsRel "a" ["b"] none ["b", "a"] ∧
    (["b", "a"] : List String) ≠ (dedupFirstSeen (strippedPool "a" ["b"] none)).take 10 := by
  constructor
  · refine ⟨["b", "a"], by decide, ?_, rfl⟩
    intro x
    rw [show strippedPool "a" ["b"] none = ["a", "b"] from rfl]
    simp only [List.mem_cons, List.not_mem_nil, or_false]
    tauto
  · rw [show dedupFirstSeen (strippedPool "a" ["b"] none) = ["a", "b"] from rfl]
    decide

/-- Claim C6, corrected: when no entity pattern matches, the entity list
is empty, and the search-term list is the singleton of the *stripped*
query (or empty when the query is all whitespace), not necessarily the
original query itself. -/
theorem claim_C6_no_entity_match (query : String) (result : List String)
    (hno : clinicalKeywords.all (fun kw => !(hasWordOccurrence kw (pyToLower query))) = true) :
    extractClinicalEntities (pyToLower query) = [] ∧
    (GenerateSearchTermsRel query (extractClinicalEntities (pyToLower query)) none result →
      result = if pyStripStr query = "" then [] else [pyStripStr query]) := by
  have hext : extractClinicalEntities (pyToLower query) = [] := by
    unfold extractClinicalEntities
    rw [List.filter_eq_nil_iff]
    intro kw hkw
    have := List.all_eq_true.mp hno kw hkw
    simpa using this
  refine ⟨hext, ?_⟩
  rintro ⟨out, hnd, hmem, rfl⟩
  rw [hext, strippedPool_query_only] at hmem
  by_cases hq : pyStripStr query = ""
  · rw [if_pos hq] at hmem
    have hout : out = [] := by
      apply List.eq_nil_iff_forall_not_mem.mpr
      intro a ha
      simpa using (hmem a).mp ha
    simp [hout, hq]
  · rw [if_neg hq] at hmem
    have hout : out = [pyStripStr query] := nodup_mem_iff_singleton hnd hmem
    simp [hout, hq]

/-- Witness for claim C6 at a concrete input with no pattern match. -/
theorem claim_C6_witness :
    extractClinicalEntities (pyToLower "hello") = [] ∧
    (["hello"] : List String) =
      (if pyStripStr "hello" = "" then [] else [pyStripStr "hello"]) := by
  have h := claim_C6_no_entity_match "hello" ["hello"] (by decide)
  refine ⟨h.1, h.2 ?_⟩
  rw [h.1]
  exact ⟨["hello"], by decide,
    fun x => by rw [show strippedPool "hello" [] none = ["hello"] from rfl], rfl⟩

/-- Counterexample to claim C6 as stated: the query " zzz " matches no
entity pattern, yet the code can return ["zzz"] (the stripped query), not
[" zzz "] (the original query), as the claim requires. -/
theorem claim_C6_counterexample :
    clinicalKeywords.all (fun kw => !(hasWordOccurrence kw (pyToLower " zzz "))) = true ∧
    GenerateSearchTermsRel " zzz " (extractClinicalEntities (pyToLower " zzz ")) none ["zzz"] ∧
    (["zzz"] : List String) ≠ [" zzz "] := by
  refine ⟨by decide, ?_, by decide⟩
  rw [show extractClinicalEntities (pyToLower " zzz ") = [] from by decide]
  exact ⟨["zzz"], by decide,
    fun x => by rw [show strippedPool " zzz " [] none = ["zzz"] from rfl], rfl⟩

/-- Claim C7, corrected: `similarity_search` keeps exactly the processed
index results whose similarity score (1 - distance) reaches the threshold,
in the order the index returned them (a stable filter, no re-sorting): the
output is a sublist of the processed input, every returned document clears
the threshold and comes from the input, and the output is descending in
score whenever the index returns ascending distances.  The code performs
no publication-date tie-break of its own. -/
theorem claim_C7_similarity_filter (raw : List RawResult) :
    (∀ d ∈ similaritySearchProcess raw,
        SIMILARITY_THRESHOLD ≤ d.score ∧ ∃ r ∈ raw, d = processRawResult r) ∧
    (similaritySearchProcess raw).Sublist (raw.map processRawResult) ∧
    ((raw.map RawResult.distance).Pairwise (fun a b => a ≤ b) →
      (similaritySearchProcess raw).Pairwise (fun a b => b.score ≤ a.score)) := by
  refine ⟨?_, List.filter_sublist _, ?_⟩
  · intro d hd
    unfold similaritySearchProcess at hd
    rw [List.mem_filter] at hd
    obtain ⟨hmem, hsc⟩ := hd
    rw [List.mem_map] at hmem
    obtain ⟨r, hr, rfl⟩ := hmem
    exact ⟨by simpa using hsc, r, hr, rfl⟩
  · intro hpair
    apply List.Pairwise.sublist (List.filter_sublist _)
    rw [List.pairwise_map]
    rw [List.pairwise_map] at hpair
    refine hpair.imp ?_
    intro a b hab
    show (processRawResult b).score ≤ (processRawResult a).score
    unfold processRawResult
    dsimp only
    linarith

/-- Witness for claim C7 at a concrete input. -/
theorem claim_C7_witness :
    (similaritySearchProcess [⟨"c", none, "t", "j", "2024", 2/10⟩]).Pairwise
      (fun a b => b.score ≤ a.score) :=
  (claim_C7_similarity_filter [⟨"c", none, "t", "j", "2024", 2/10⟩]).2.2 (by simp)

/-- Counterexample to claim C7 as stated: two index results with equal
distance arrive with the older publication date first; the code keeps them
in arrival order, violating the claimed more-recent-date tie-break. -/
theorem claim_C7_counterexample :
    similaritySearchProcess
        [⟨"cA", none, "tA", "j", "2020", 1/10⟩, ⟨"cB", none, "tB", "j", "2024", 1/10⟩] =
      [processRawResult ⟨"cA", none, "tA", "j", "2020", 1/10⟩,
       processRawResult ⟨"cB", none, "tB", "j", "2024", 1/10⟩] ∧
    (processRawResult (⟨"cA", none, "tA", "j", "2020", 1/10⟩ : RawResult)).score =
      (processRawResult (⟨"cB", none, "tB", "j", "2024", 1/10⟩ : RawResult)).score ∧
    charListLt
        (processRawResult (⟨"cA", none, "tA", "j", "2020", 1/10⟩ : RawResult)).pub_date.data
        (processRawResult (⟨"cB", none, "tB", "j", "2024", 1/10⟩ : RawResult)).pub_date.data
      = true ∧
    ¬ SpecSearchOrdered
        (similaritySearchProcess
          [⟨"cA", none, "tA", "j", "2020", 1/10⟩, ⟨"cB", none, "tB", "j", "2024", 1/10⟩]) := by
  have hsc : (decide ((1 : ℚ) - 1/10 ≥ SIMILARITY_THRESHOLD)) = true := by
    rw [decide_eq_true_eq]
    unfold SIMILARITY_THRESHOLD
    norm_num
  have hproc : similaritySearchProcess
      [⟨"cA", none, "tA", "j", "2020", 1/10⟩, ⟨"cB", none, "tB", "j", "2024", 1/10⟩] =
      [processRawResult ⟨"cA", none, "tA", "j", "2020", 1/10⟩,
       processRawResult ⟨"cB", none, "tB", "j", "2024", 1/10⟩] := by
    unfold similaritySearchProcess
    rw [List.map_cons, List.map_cons, List.map_nil]
    rw [List.filter_cons_of_pos, List.filter_cons_of_pos, List.filter_nil] <;>
      exact hsc
  refine ⟨hproc, rfl, by decide, ?_⟩
  rw [hproc]
  unfold SpecSearchOrdered
  rw [List.pairwise_cons]
  intro hcontra
  rcases hcontra.1 _ (List.mem_singleton_self _) with hgt | ⟨_, hnlt⟩
  · exact absurd hgt (by unfold processRawResult; dsimp only; exact lt_irrefl _)
  · exact absurd hnlt (by decide)

lemma addDocuments_singleton (ids : List DocId) (d : Document)
    (h : ids.length < 10000) :
    addDocuments ids [d] =
      if generateDocId d ∈ ids then ids else ids ++ [generateDocId d] := by
  unfold addDocuments filterNewDocuments
  rw [if_pos h]
  by_cases hm : generateDocId d ∈ ids
  · simp [hm]
  · simp [hm]

/-- Claim C8, corrected: while the collection holds fewer than 10000
documents, insertion is idempotent on the document identifier - a second
insert of the same document leaves the count unchanged and creates no
duplicate id, and two pmid-less documents with equal title and abstract
collapse to the same content-hash identifier, the second being dropped.
(At 10000 documents or more the source skips the existing-id lookup and
re-inserts; see the counterexample.) -/
theorem claim_C8_idempotent_insert (ids : List DocId) (d d1 d2 : Document)
    (hlen : ids.length + 1 < 10000) :
    (addDocuments (addDocuments ids [d]) [d]).length = (addDocuments ids [d]).length ∧
    (ids.Nodup → (addDocuments (addDocuments ids [d]) [d]).Nodup) ∧
    (d1.pmid = none → d2.pmid = none → d1.title = d2.title → d1.abstract = d2.abstract →
      generateDocId d1 = generateDocId d2 ∧
      (addDocuments (addDocuments ids [d1]) [d2]).length = (addDocuments ids [d1]).length) := by
  have hl0 : ids.length < 10000 := by omega
  have hsecond : ∀ e : Document, generateDocId e = generateDocId d →
      addDocuments (addDocuments ids [d]) [e] = addDocuments ids [d] := by
    intro e he
    rw [addDocuments_singleton ids d hl0]
    by_cases hm : generateDocId d ∈ ids
    · rw [if_pos hm, addDocuments_singleton ids e hl0, he, if_pos hm]
    · rw [if_neg hm]
      have hlen2 : (ids ++ [generateDocId d]).length < 10000 := by
        simp only [List.length_append, List.length_cons, List.length_nil]
        omega
      rw [addDocuments_singleton _ e hlen2, he, if_pos (by simp)]
  refine ⟨by rw [hsecond d rfl], ?_, ?_⟩
  · intro hnd
    rw [hsecond d rfl, addDocuments_singleton ids d hl0]
    by_cases hm : generateDocId d ∈ ids
    · rwa [if_pos hm]
    · rw [if_neg hm]
      simp [List.nodup_append, hnd, hm]
  · intro h1 h2 ht ha
    have hid : generateDocId d1 = generateDocId d2 := by
      unfold generateDocId
      rw [h1, h2, ht, ha]
    refine ⟨hid, ?_⟩
    have hl1 : ids.length < 10000 := by omega
    have hsecond1 : ∀ e : Document, generateDocId e = generateDocId d1 →
        addDocuments (addDocuments ids [d1]) [e] = addDocuments ids [d1] := by
      intro e he
      rw [addDocuments_singleton ids d1 hl1]
      by_cases hm : generateDocId d1 ∈ ids
      · rw [if_pos hm, addDocuments_singleton ids e hl1, he, if_pos hm]
      · rw [if_neg hm]
        have hlen2 : (ids ++ [generateDocId d1]).length < 10000 := by
          simp only [List.length_append, List.length_cons, List.length_nil]
          omega
        rw [addDocuments_singleton _ e hlen2, he, if_pos (by simp)]
    rw [hsecond1 d2 hid.symm]

/-- Witness for claim C8 at concrete inputs: a pmid document inserted
twice into an empty index, and two pmid-less documents sharing title and
abstract. -/
theorem claim_C8_witness :
    (addDocuments (addDocuments [] [⟨some "42", "t", "a", "c", "j", "2024", 0⟩])
        [⟨some "42", "t", "a", "c", "j", "2024", 0⟩]).length =
      (addDocuments [] [⟨some "42", "t", "a", "c", "j", "2024", 0⟩]).length ∧
    generateDocId ⟨none, "T", "A", "c1", "j1", "2023", 0⟩ =
      generateDocId ⟨none, "T", "A", "c2", "j2", "2024", 0⟩ ∧
    (addDocuments (addDocuments [] [⟨none, "T", "A", "c1", "j1", "2023", 0⟩])
        [⟨none, "T", "A", "c2", "j2", "2024", 0⟩]).length =
      (addDocuments [] [⟨none, "T", "A", "c1", "j1", "2023", 0⟩]).length := by
  have h := claim_C8_idempotent_insert []
    ⟨some "42", "t", "a", "c", "j", "2024", 0⟩
    ⟨none, "T", "A", "c1", "j1", "2023", 0⟩
    ⟨none, "T", "A", "c2", "j2", "2024", 0⟩
    (by decide)
  exact ⟨h.1, (h.2.2 rfl rfl rfl rfl).1, (h.2.2 rfl rfl rfl rfl).2⟩

/-- The 9999-id index state used by the claim C8 counterexample. -/
def c8BigState : List DocId :=
  List.replicate 9999 (DocId.contentHash "seed")

/-- The document the claim C8 counterexample inserts twice. -/
def c8Doc : Document :=
  ⟨some "42", "t", "a", "c", "j", "2024", 0⟩

/-- Counterexample to claim C8 as stated (for every document and state):
starting from 9999 stored ids, the first insert brings the count to 10000;
the second insert of the same document then skips the existing-id lookup
(the collection is no longer below 10000) and appends a duplicate,
changing the count. -/
theorem claim_C8_counterexample :
    generateDocId c8Doc ∈ addDocuments c8BigState [c8Doc] ∧
    (addDocuments (addDocuments c8BigState [c8Doc]) [c8Doc]).length ≠
      (addDocuments c8BigState [c8Doc]).length := by
  have hnotmem : generateDocId c8Doc ∉ c8BigState := by
    intro hmem
    rw [c8BigState, List.mem_replicate] at hmem
    exact absurd hmem.2 (by decide)
  have h1 : addDocuments c8BigState [c8Doc] = c8BigState ++ [generateDocId c8Doc] := by
    rw [addDocuments_singleton _ _ (by rw [c8BigState, List.length_replicate]; omega),
      if_neg hnotmem]
  have hlen1 : (addDocuments c8BigState [c8Doc]).length = 10000 := by
    rw [h1, List.length_append, c8BigState, List.length_replicate]
    rfl
  have h2 : ∀ ids : List DocId, ids.length = 10000 →
      addDocuments ids [c8Doc] = ids ++ [generateDocId c8Doc] := by
    intro ids hl
    unfold addDocuments filterNewDocuments
    rw [if_neg (by rw [hl]; omega)]
    simp
  constructor
  · rw [h1]
    simp
  · rw [h2 _ hlen1, List.length_append]
    simp

/-- Claim C9, corrected: every successful pipeline response carries the
fixed medical disclaimer (both recommendation branches start with it, and
so does the recommendation-level error fallback), and no primary
recommendation field ever carries the internal exception text (the
recommendation-level fallback uses a fixed string independent of the
exception); however the top-level `process_query` error fallback is a
separate error dictionary with no disclaimer at all, the raw exception
text confined to its `details` field. -/
theorem claim_C9_disclaimer (year : Nat) (query : String)
    (patient_context : Option PatientContext) (docs : List Document) (e : String) :
    responseContainsDisclaimer (processQuery year query patient_context docs none) = true ∧
    strStarts (generateRecommendations year query patient_context docs).disclaimer
      disclaimerCore = true ∧
    (generateRecommendationsError e).primary_recommendation =
      "Error generating recommendations. Please consult with a healthcare provider." ∧
    strStarts (generateRecommendationsError e).disclaimer disclaimerCore = true ∧
    processQuery year query patient_context docs (some e) =
      RagResponse.failure query "Failed to process clinical query" e := by
  refine ⟨?_, ?_, rfl, rfl, rfl⟩
  · cases docs with
    | nil => rfl
    | cons d t => rfl
  · cases docs with
    | nil => rfl
    | cons d t => rfl

/-- Counterexample to claim C9 as stated: the `process_query` error
fallback (reachable whenever an uncaught exception escapes the pipeline
body, for example from a caller-supplied progress callback) is returned to
the caller without any disclaimer field. -/
theorem claim_C9_counterexample :
    processQuery 2026 "chest pain" none [] (some "boom") =
      RagResponse.failure "chest pain" "Failed to process clinical query" "boom" ∧
    responseContainsDisclaimer (processQuery 2026 "chest pain" none [] (some "boom")) =
      false := by
  exact ⟨rfl, by decide⟩

end CDSS
